import Mathlib

/-!
Verification of the solar-system scene script (registry-driven variant of
src/main.js).  JavaScript numbers are embedded as exact rationals: `mathPI`
is the exact rational value of the IEEE-754 double `Math.PI`, and all
arithmetic is idealised as exact (no rounding).  Division-by-zero behaviour
of JS floats is modelled separately by the `JsNum` type, which carries the
special values Infinity, -Infinity and NaN.  Mesh geometry, materials and
texture loading are delegated to the external rendering engine (spec section
4.1) and are not modelled numerically; what is modelled is every transform
(position / rotation) mutation the script performs, and the scene-graph
parenting operations (`pivot.add`, `scene.add`).
-/

/-- Exact rational value of the IEEE-754 double `Math.PI`
(3.141592653589793115997963...). -/
def mathPI : ℚ := 884279719003555 / 281474976710656

/-- Source constant `TWO_PI = Math.PI * 2`. -/
def TWO_PI : ℚ := mathPI * 2

/-- Source constant `DEG_TO_RAD = Math.PI / 180`. -/
def DEG_TO_RAD : ℚ := mathPI / 180

/-- Source constant `INIT_X = 0`. -/
def INIT_X : ℚ := 0

/-- Source constant `INIT_Y = 0`. -/
def INIT_Y : ℚ := 0

/-- Source constant `INIT_Z = 10`. -/
def INIT_Z : ℚ := 10

/-- Source constant `END_X = 0`. -/
def END_X : ℚ := 0

/-- Source constant `END_Y = 300`. -/
def END_Y : ℚ := 300

/-- Source constant `END_Z = 1500`. -/
def END_Z : ℚ := 1500

/-- Source constant `END_ROTATION_X = -0.35`. -/
def END_ROTATION_X : ℚ := -0.35

/-- Source constant `ROTATION_SCALE = 77`. -/
def ROTATION_SCALE : ℚ := 77

/-- Source constant `ORBIT_SCALE = 25000`. -/
def ORBIT_SCALE : ℚ := 25000

/-- Source constant `RADIUS_SCALE = 2e-4`. -/
def RADIUS_SCALE : ℚ := 2e-4

/-- Source constant `DISTANCE_SCALE = 4e-7`. -/
def DISTANCE_SCALE : ℚ := 4e-7

/-- A 3-component vector, as used for `Object3D.position` and the Euler
angles `Object3D.rotation` of the scene-graph engine. -/
structure Vec3 where
  x : ℚ
  y : ℚ
  z : ℚ
deriving DecidableEq

/-- The transform state of a scene-graph node (`THREE.Object3D`, mesh or
plain pivot): a position vector and Euler rotation angles.  A freshly
constructed node has position and rotation zero. -/
structure Obj3D where
  position : Vec3
  rotation : Vec3
deriving DecidableEq

/-- A freshly constructed scene-graph node: position and rotation zero. -/
def Obj3D.new : Obj3D := ⟨⟨0, 0, 0⟩, ⟨0, 0, 0⟩⟩

/-- JavaScript IEEE-754 double idealised as an exact rational together with
the special values Infinity, -Infinity and NaN (signed zero is not
distinguished; all finite arithmetic is exact). -/
inductive JsNum where
  | num (q : ℚ)
  | inf
  | negInf
  | nan
deriving DecidableEq

/-- JS addition on doubles (exact on finite values). -/
def jsAdd : JsNum → JsNum → JsNum
  | JsNum.nan, _ => JsNum.nan
  | _, JsNum.nan => JsNum.nan
  | JsNum.num a, JsNum.num b => JsNum.num (a + b)
  | JsNum.num _, JsNum.inf => JsNum.inf
  | JsNum.inf, JsNum.num _ => JsNum.inf
  | JsNum.num _, JsNum.negInf => JsNum.negInf
  | JsNum.negInf, JsNum.num _ => JsNum.negInf
  | JsNum.inf, JsNum.inf => JsNum.inf
  | JsNum.negInf, JsNum.negInf => JsNum.negInf
  | JsNum.inf, JsNum.negInf => JsNum.nan
  | JsNum.negInf, JsNum.inf => JsNum.nan

/-- JS multiplication on doubles (exact on finite values). -/
def jsMul : JsNum → JsNum → JsNum
  | JsNum.nan, _ => JsNum.nan
  | _, JsNum.nan => JsNum.nan
  | JsNum.num a, JsNum.num b => JsNum.num (a * b)
  | JsNum.num a, JsNum.inf =>
      if 0 < a then JsNum.inf else if a < 0 then JsNum.negInf else JsNum.nan
  | JsNum.inf, JsNum.num a =>
      if 0 < a then JsNum.inf else if a < 0 then JsNum.negInf else JsNum.nan
  | JsNum.num a, JsNum.negInf =>
      if 0 < a then JsNum.negInf else if a < 0 then JsNum.inf else JsNum.nan
  | JsNum.negInf, JsNum.num a =>
      if 0 < a then JsNum.negInf else if a < 0 then JsNum.inf else JsNum.nan
  | JsNum.inf, JsNum.inf => JsNum.inf
  | JsNum.negInf, JsNum.negInf => JsNum.inf
  | JsNum.inf, JsNum.negInf => JsNum.negInf
  | JsNum.negInf, JsNum.inf => JsNum.negInf

/-- JS division on doubles: a nonzero finite value divided by (positive)
zero yields a signed infinity, zero by zero yields NaN. -/
def jsDiv : JsNum → JsNum → JsNum
  | JsNum.nan, _ => JsNum.nan
  | _, JsNum.nan => JsNum.nan
  | JsNum.num a, JsNum.num b =>
      if b = 0 then
        (if 0 < a then JsNum.inf else if a < 0 then JsNum.negInf else JsNum.nan)
      else JsNum.num (a / b)
  | JsNum.num _, JsNum.inf => JsNum.num 0
  | JsNum.num _, JsNum.negInf => JsNum.num 0
  | JsNum.inf, JsNum.num b => if 0 ≤ b then JsNum.inf else JsNum.negInf
  | JsNum.negInf, JsNum.num b => if 0 ≤ b then JsNum.negInf else JsNum.inf
  | JsNum.inf, _ => JsNum.nan
  | JsNum.negInf, _ => JsNum.nan

/-- Ring radii object passed to `createBody` / `createRing`
(`{ innerRadius, outerRadius }`).  The fields are JS numbers because the
scene-population loop computes them from possibly-absent registry fields
(absent field × scale = NaN in JS). -/
structure RingRadii where
  innerRadius : JsNum
  outerRadius : JsNum
deriving DecidableEq

/-- The object returned by `createBody`: `{ body, ring?, pivot, orbit }`.
`ring` is `none` exactly when the source returns the ring-less object
literal. -/
structure BodyNode where
  body : Obj3D
  ring : Option Obj3D
  pivot : Obj3D
  orbit : Obj3D
deriving DecidableEq

/-- Children attached to the pivot node by `pivot.add(...)` inside
`createBody`. -/
inductive PivotChild where
  | body
  | ring
deriving DecidableEq

/-- Nodes attached to the scene root by `scene.add(...)` inside
`createBody`. -/
inductive SceneAdd where
  | pivot
  | orbit
deriving DecidableEq

/-- Result of `createBody`: the returned `BodyNode` plus the scene-graph
edges the call created (which nodes became children of the pivot, and which
nodes were added to the scene root). -/
structure CreateResult where
  node : BodyNode
  pivotChildren : List PivotChild
  sceneAdds : List SceneAdd
deriving DecidableEq

/-- Source `createOrbit(distance)`: builds the translucent torus mesh for
the orbit path (geometry and material are engine concerns); the returned
mesh starts with zero transform. -/
def createOrbit (_distance : ℚ) : Obj3D := Obj3D.new

/-- Source `createRing(bodyName, ringRadii)`: builds the ring mesh
(geometry from the radii and the texture are engine concerns); the returned
mesh starts with zero transform. -/
def createRing (_bodyName : String) (_ringRadii : RingRadii) : Obj3D := Obj3D.new

/-- Source `createBody(bodyName, bodyRadius, distance, ringRadii)`
(registry-driven variant): builds the body mesh, parents it to a fresh
pivot, adds the pivot and the orbit torus to the scene, sets
`body.position.set(distance, 0, 0)` and `orbit.rotation.x += 0.5 * Math.PI`;
when `ringRadii` is supplied it additionally builds the ring mesh, parents
it to the pivot, sets `ring.position.set(distance, 0, 0)` and
`ring.rotation.x = -0.5 * Math.PI`, and returns `{ body, ring, pivot,
orbit }`, otherwise `{ body, pivot, orbit }`. -/
def createBody (bodyName : String) (_bodyRadius distance : ℚ)
    (ringRadii : Option RingRadii) : CreateResult :=
  let body : Obj3D := Obj3D.new
  let pivot : Obj3D := Obj3D.new
  let body : Obj3D := { body with position := ⟨distance, 0, 0⟩ }
  let orbit : Obj3D := createOrbit distance
  let orbit : Obj3D :=
    { orbit with rotation := { orbit.rotation with x := orbit.rotation.x + 0.5 * mathPI } }
  match ringRadii with
  | some rr =>
      let ring : Obj3D := createRing bodyName rr
      let ring : Obj3D := { ring with position := ⟨distance, 0, 0⟩ }
      let ring : Obj3D := { ring with rotation := { ring.rotation with x := -0.5 * mathPI } }
      { node := ⟨body, some ring, pivot, orbit⟩,
        pivotChildren := [PivotChild.body, PivotChild.ring],
        sceneAdds := [SceneAdd.pivot, SceneAdd.orbit] }
  | none =>
      { node := ⟨body, none, pivot, orbit⟩,
        pivotChildren := [PivotChild.body],
        sceneAdds := [SceneAdd.pivot, SceneAdd.orbit] }

/-- Source `applyTiltAndInclination(body, tilt, inclination)`: converts the
angles to radians and adds the tilt to `body.rotation.x` (and to
`ring.rotation.x` when a ring is present) and the orbital angle to
`pivot.rotation.x` and `orbit.rotation.x`. -/
def applyTiltAndInclination (node : BodyNode) (tilt inclination : ℚ) : BodyNode :=
  let tiltR : ℚ := tilt * DEG_TO_RAD
  let inclinationR : ℚ := inclination * DEG_TO_RAD
  { node with
    body := { node.body with
      rotation := { node.body.rotation with x := node.body.rotation.x + tiltR } },
    pivot := { node.pivot with
      rotation := { node.pivot.rotation with x := node.pivot.rotation.x + inclinationR } },
    orbit := { node.orbit with
      rotation := { node.orbit.rotation with x := node.orbit.rotation.x + inclinationR } },
    ring := match node.ring with
      | none => none
      | some r => some { r with
          rotation := { r.rotation with x := r.rotation.x + tiltR } } }

/-- Source `advanceRotationAndOrbit(body, dayLength, yearLength)`
(registry-driven variant): adds `TWO_PI / (dayLength * 86400) *
ROTATION_SCALE` to `body.rotation.y`, and, only when `yearLength != null`,
adds `TWO_PI / (yearLength * 86400) * ORBIT_SCALE` to `pivot.rotation.y`. -/
def advanceRotationAndOrbit (node : BodyNode) (dayLength : ℚ)
    (yearLength : Option ℚ) : BodyNode :=
  let rotationPeriod : ℚ := TWO_PI / (dayLength * 86400) * ROTATION_SCALE
  let node1 : BodyNode := { node with
    body := { node.body with
      rotation := { node.body.rotation with y := node.body.rotation.y + rotationPeriod } } }
  match yearLength with
  | none => node1
  | some yl =>
      let orbitalPeriod : ℚ := TWO_PI / (yl * 86400) * ORBIT_SCALE
      { node1 with
        pivot := { node1.pivot with
          rotation := { node1.pivot.rotation with y := node1.pivot.rotation.y + orbitalPeriod } } }

/-- N-fold iteration of `advanceRotationAndOrbit` with fixed day/year
lengths, as performed by successive frames of the `animate` loop. -/
def advanceIter : ℕ → BodyNode → ℚ → Option ℚ → BodyNode
  | 0, node, _, _ => node
  | n + 1, node, d, yl => advanceRotationAndOrbit (advanceIter n node d yl) d yl

/-- Modelled from the spec: one record of the `BODIES` registry
(`src/data/bodies.js` is imported by the scene-population loop but is not
part of the sources; spec section 3 gives its shape: `id`, `radiusKm`,
`distKm`, `rotationDays`, nullable `orbitalDays`, `axialTiltDeg`,
`inclinationDeg`, optional `ringInnerKm` / `ringOuterKm`). -/
structure BodyParams where
  id : String
  radiusKm : ℚ
  distKm : ℚ
  rotationDays : ℚ
  orbitalDays : Option ℚ
  axialTiltDeg : ℚ
  inclinationDeg : ℚ
  ringInnerKm : Option ℚ
  ringOuterKm : Option ℚ
deriving DecidableEq

/-- JS multiplication of a possibly-absent (undefined) registry field by a
number: `undefined * k` is NaN in JS. -/
def undefMul (x : Option ℚ) (k : ℚ) : JsNum :=
  match x with
  | none => JsNum.nan
  | some q => JsNum.num (q * k)

/-- One iteration of the scene-population loop (`for (const b of BODIES)`):
scales radius and distance, always builds a `ringParam` object literal from
the (possibly absent) ring fields, calls `createBody` with it, applies tilt
and inclination, then sets `pivot.rotation.y` to a random phase and adds a
random phase to `body.rotation.y`.  The two `Math.random()` draws are taken
as parameters `rand1`, `rand2` (each multiplied by `TWO_PI` as in the
source). -/
def buildEntry (b : BodyParams) (rand1 rand2 : ℚ) : BodyNode :=
  let scaledRadius : ℚ := b.radiusKm * RADIUS_SCALE
  let scaledRadius : ℚ := if b.id = "sun" then scaledRadius * 0.02 else scaledRadius
  let scaledDist : ℚ := b.distKm * DISTANCE_SCALE
  let ringParam : RingRadii :=
    ⟨undefMul b.ringInnerKm RADIUS_SCALE, undefMul b.ringOuterKm RADIUS_SCALE⟩
  let created : BodyNode := (createBody b.id scaledRadius scaledDist (some ringParam)).node
  let created : BodyNode := applyTiltAndInclination created b.axialTiltDeg b.inclinationDeg
  let created : BodyNode := { created with
    pivot := { created.pivot with
      rotation := { created.pivot.rotation with y := rand1 * TWO_PI } } }
  { created with
    body := { created.body with
      rotation := { created.body.rotation with y := created.body.rotation.y + rand2 * TWO_PI } } }

/-- Camera state: position, Euler rotation and projection aspect value. -/
structure Camera where
  position : Vec3
  rotation : Vec3
  aspect : ℚ
deriving DecidableEq

/-- The view-related mutable state touched by the event handlers: the
camera, the renderer canvas size and the post-processing composer size. -/
structure ViewState where
  camera : Camera
  rendererSize : ℚ × ℚ
  composerSize : ℚ × ℚ
deriving DecidableEq

/-- Startup view state for a window of size `w × h`: camera at
`(INIT_X, INIT_Y, INIT_Z)` with zero rotation, aspect `w / h` (the initial
`onWindowResize()` call has run). -/
def initViewState (w h : ℚ) : ViewState :=
  ⟨⟨⟨INIT_X, INIT_Y, INIT_Z⟩, ⟨0, 0, 0⟩, w / h⟩, (w, h), (w, h)⟩

/-- Source `onWindowResize()` for a window of size `w × h`: resizes the
renderer and the composer and sets `camera.aspect = w / h`
(`updateProjectionMatrix` only refreshes the projection from `aspect`). -/
def onWindowResize (w h : ℚ) (st : ViewState) : ViewState :=
  { st with
    rendererSize := (w, h),
    camera := { st.camera with aspect := w / h },
    composerSize := (w, h) }

/-- Source helper `interpolate = (a, b, p) => a + (b - a) * p`. -/
def interpolate (a b p : ℚ) : ℚ := a + (b - a) * p

/-- Source `moveCamera()` (clamped-interpolation variant) at scroll offset
`t` (`document.body.getBoundingClientRect().top`): computes
`progress = Math.min(1, Math.max(0, -t / 2000))` and linearly interpolates
position between the INIT and END poses and `rotation.x` between `0` and
`END_ROTATION_X`. -/
def moveCamera (t : ℚ) (st : ViewState) : ViewState :=
  let progress : ℚ := min 1 (max 0 (-t / 2000))
  { st with
    camera := { st.camera with
      position := ⟨interpolate INIT_X END_X progress,
                   interpolate INIT_Y END_Y progress,
                   interpolate INIT_Z END_Z progress⟩,
      rotation := { st.camera.rotation with
        x := interpolate 0 END_ROTATION_X progress } } }

/-- The two browser events that mutate the view state: window resize and
document scroll. -/
inductive BrowserEvent where
  | resize (w h : ℚ)
  | scroll (t : ℚ)

/-- Dispatch of one browser event to its handler. -/
def applyEvent (st : ViewState) (e : BrowserEvent) : ViewState :=
  match e with
  | BrowserEvent.resize w h => onWindowResize w h st
  | BrowserEvent.scroll t => moveCamera t st

/-- A sequence of browser events applied in order. -/
def applyEvents (st : ViewState) (es : List BrowserEvent) : ViewState :=
  es.foldl applyEvent st

/-- JS value of `TWO_PI` for the float-special model. -/
def TWO_PI_JS : JsNum := JsNum.num TWO_PI

/-- The spin increment `TWO_PI / (dayLength * 86400) * ROTATION_SCALE`
computed by `advanceRotationAndOrbit`, under JS float semantics. -/
def rotationPeriodJs (dayLength : JsNum) : JsNum :=
  jsMul (jsDiv TWO_PI_JS (jsMul dayLength (JsNum.num 86400))) (JsNum.num 77)

/-- The orbital increment `TWO_PI / (yearLength * 86400) * ORBIT_SCALE`
computed by `advanceRotationAndOrbit`, under JS float semantics. -/
def orbitalPeriodJs (yearLength : JsNum) : JsNum :=
  jsMul (jsDiv TWO_PI_JS (jsMul yearLength (JsNum.num 86400))) (JsNum.num 25000)

/-- The two rotation components `advanceRotationAndOrbit` reads and writes
(`body.rotation.y` and `pivot.rotation.y`), under JS float semantics. -/
structure BodyNodeJs where
  bodyRotY : JsNum
  pivotRotY : JsNum
deriving DecidableEq

/-- Source `advanceRotationAndOrbit` under JS float semantics, restricted
to the two components it mutates: unconditionally adds the spin increment
to `body.rotation.y`, and adds the orbital increment to `pivot.rotation.y`
when `yearLength != null`.  No guard rejects a zero or otherwise malformed
`dayLength`. -/
def advanceRotationAndOrbitJs (node : BodyNodeJs) (dayLength : JsNum)
    (yearLength : Option JsNum) : BodyNodeJs :=
  let node1 : BodyNodeJs := { node with bodyRotY := jsAdd node.bodyRotY (rotationPeriodJs dayLength) }
  match yearLength with
  | none => node1
  | some yl => { node1 with pivotRotY := jsAdd node1.pivotRotY (orbitalPeriodJs yl) }

/-- A JsNum is finite when it is an ordinary number (not ±Infinity, not
NaN). -/
def JsNum.isFinite : JsNum → Bool
  | JsNum.num _ => true
  | _ => false

/-- A sample body node as built by the program (no ring). -/
def earthNode : BodyNode := (createBody "earth" 3 75 none).node

/-- Modelled from the spec: a `BODIES` registry record without ring radii
(spec section 3: the ring fields are optional; a body such as Mercury
supplies neither). -/
def mercuryParams : BodyParams :=
  ⟨"mercury", 2440, 57900000, 59, some 88, 2.04, 7, none, none⟩

/-! Helper lemmas: componentwise effect of `advanceRotationAndOrbit`. -/

lemma advance_body_y (node : BodyNode) (d : ℚ) (yl : Option ℚ) :
    (advanceRotationAndOrbit node d yl).body.rotation.y
      = node.body.rotation.y + TWO_PI / (d * 86400) * ROTATION_SCALE := by
  cases yl <;> rfl

lemma advance_body_x (node : BodyNode) (d : ℚ) (yl : Option ℚ) :
    (advanceRotationAndOrbit node d yl).body.rotation.x = node.body.rotation.x := by
  cases yl <;> rfl

lemma advance_body_z (node : BodyNode) (d : ℚ) (yl : Option ℚ) :
    (advanceRotationAndOrbit node d yl).body.rotation.z = node.body.rotation.z := by
  cases yl <;> rfl

lemma advance_body_pos (node : BodyNode) (d : ℚ) (yl : Option ℚ) :
    (advanceRotationAndOrbit node d yl).body.position = node.body.position := by
  cases yl <;> rfl

lemma advance_pivot_none (node : BodyNode) (d : ℚ) :
    (advanceRotationAndOrbit node d none).pivot = node.pivot := rfl

lemma advance_pivot_y_some (node : BodyNode) (d y : ℚ) :
    (advanceRotationAndOrbit node d (some y)).pivot.rotation.y
      = node.pivot.rotation.y + TWO_PI / (y * 86400) * ORBIT_SCALE := rfl

lemma advance_pivot_x (node : BodyNode) (d : ℚ) (yl : Option ℚ) :
    (advanceRotationAndOrbit node d yl).pivot.rotation.x = node.pivot.rotation.x := by
  cases yl <;> rfl

lemma advance_pivot_z (node : BodyNode) (d : ℚ) (yl : Option ℚ) :
    (advanceRotationAndOrbit node d yl).pivot.rotation.z = node.pivot.rotation.z := by
  cases yl <;> rfl

lemma advance_pivot_pos (node : BodyNode) (d : ℚ) (yl : Option ℚ) :
    (advanceRotationAndOrbit node d yl).pivot.position = node.pivot.position := by
  cases yl <;> rfl

lemma advance_ring (node : BodyNode) (d : ℚ) (yl : Option ℚ) :
    (advanceRotationAndOrbit node d yl).ring = node.ring := by
  cases yl <;> rfl

lemma advance_orbit (node : BodyNode) (d : ℚ) (yl : Option ℚ) :
    (advanceRotationAndOrbit node d yl).orbit = node.orbit := by
  cases yl <;> rfl

/-! Helper lemmas: numeric facts about the constants and increments. -/

lemma mathPI_pos : 0 < mathPI := by norm_num [mathPI]

lemma TWO_PI_ne_zero : TWO_PI ≠ 0 := by norm_num [TWO_PI, mathPI]

lemma spinIncrement_ne_zero {d : ℚ} (hd : d ≠ 0) :
    TWO_PI / (d * 86400) * ROTATION_SCALE ≠ 0 :=
  mul_ne_zero (div_ne_zero TWO_PI_ne_zero (mul_ne_zero hd (by norm_num)))
    (by norm_num [ROTATION_SCALE])

lemma orbIncrement_ne_zero {y : ℚ} (hy : y ≠ 0) :
    TWO_PI / (y * 86400) * ORBIT_SCALE ≠ 0 :=
  mul_ne_zero (div_ne_zero TWO_PI_ne_zero (mul_ne_zero hy (by norm_num)))
    (by norm_num [ORBIT_SCALE])

/-! Helper lemmas: `advanceIter`. -/

lemma advanceIter_succ (n : ℕ) (node : BodyNode) (d : ℚ) (yl : Option ℚ) :
    advanceIter (n + 1) node d yl
      = advanceRotationAndOrbit (advanceIter n node d yl) d yl := rfl

lemma advanceIter_body_y (n : ℕ) (node : BodyNode) (d : ℚ) (yl : Option ℚ) :
    (advanceIter n node d yl).body.rotation.y
      = node.body.rotation.y + n * (TWO_PI / (d * 86400) * ROTATION_SCALE) := by
  induction n with
  | zero => simp [advanceIter]
  | succ k ih =>
      rw [advanceIter_succ, advance_body_y, ih]
      push_cast
      ring

lemma advanceIter_body_x (n : ℕ) (node : BodyNode) (d : ℚ) (yl : Option ℚ) :
    (advanceIter n node d yl).body.rotation.x = node.body.rotation.x := by
  induction n with
  | zero => rfl
  | succ k ih => rw [advanceIter_succ, advance_body_x, ih]

lemma advanceIter_pivot_none (n : ℕ) (node : BodyNode) (d : ℚ) :
    (advanceIter n node d none).pivot = node.pivot := by
  induction n with
  | zero => rfl
  | succ k ih => rw [advanceIter_succ, advance_pivot_none, ih]

/-- C9: for every window size, `onWindowResize` sets the camera aspect
value to the new `width / height` and leaves the camera position and
rotation unchanged. -/
theorem spec_C9 (w h : ℚ) (st : ViewState) :
    (onWindowResize w h st).camera.aspect = w / h
    ∧ (onWindowResize w h st).camera.position = st.camera.position
    ∧ (onWindowResize w h st).camera.rotation = st.camera.rotation :=
  ⟨rfl, rfl, rfl⟩

/-- C10: one `advanceRotationAndOrbit` call mutates only the pivot's and
the body mesh's y rotations: the x and z rotation components (holding tilt
and inclination), the positions of body and pivot, and the ring and
orbit-path nodes are all unchanged. -/
theorem spec_C10 (node : BodyNode) (d : ℚ) (yl : Option ℚ) :
    (advanceRotationAndOrbit node d yl).body.rotation.x = node.body.rotation.x
    ∧ (advanceRotationAndOrbit node d yl).body.rotation.z = node.body.rotation.z
    ∧ (advanceRotationAndOrbit node d yl).body.position = node.body.position
    ∧ (advanceRotationAndOrbit node d yl).pivot.rotation.x = node.pivot.rotation.x
    ∧ (advanceRotationAndOrbit node d yl).pivot.rotation.z = node.pivot.rotation.z
    ∧ (advanceRotationAndOrbit node d yl).pivot.position = node.pivot.position
    ∧ (advanceRotationAndOrbit node d yl).ring = node.ring
    ∧ (advanceRotationAndOrbit node d yl).orbit = node.orbit :=
  ⟨advance_body_x node d yl, advance_body_z node d yl, advance_body_pos node d yl,
   advance_pivot_x node d yl, advance_pivot_z node d yl, advance_pivot_pos node d yl,
   advance_ring node d yl, advance_orbit node d yl⟩

/-- C5: every `createBody` call places the body mesh at local offset
`(distance, 0, 0)` relative to the newly created pivot (the body is a child
of the pivot) and adds the pivot to the scene root. -/
theorem spec_C5 (n : String) (r dist : ℚ) (rr : Option RingRadii) :
    (createBody n r dist rr).node.body.position = ⟨dist, 0, 0⟩
    ∧ PivotChild.body ∈ (createBody n r dist rr).pivotChildren
    ∧ SceneAdd.pivot ∈ (createBody n r dist rr).sceneAdds := by
  cases rr <;>
    exact ⟨rfl, List.mem_cons_self .., List.mem_cons_self ..⟩

/-! Helper lemmas: `applyTiltAndInclination` and its commutation with
`advanceRotationAndOrbit`. -/

lemma applyTilt_body_y (node : BodyNode) (t i : ℚ) :
    (applyTiltAndInclination node t i).body.rotation.y = node.body.rotation.y := rfl

lemma applyTilt_body_x (node : BodyNode) (t i : ℚ) :
    (applyTiltAndInclination node t i).body.rotation.x
      = node.body.rotation.x + t * DEG_TO_RAD := rfl

lemma advance_applyTilt_comm (node : BodyNode) (t i d : ℚ) (yl : Option ℚ) :
    advanceRotationAndOrbit (applyTiltAndInclination node t i) d yl
      = applyTiltAndInclination (advanceRotationAndOrbit node d yl) t i := by
  rcases node with ⟨b, r, p, o⟩
  rcases r with _ | r <;> rcases yl with _ | y <;> rfl

lemma advanceIter_applyTilt_comm (N : ℕ) (node : BodyNode) (t i d : ℚ)
    (yl : Option ℚ) :
    advanceIter N (applyTiltAndInclination node t i) d yl
      = applyTiltAndInclination (advanceIter N node d yl) t i := by
  induction N with
  | zero => rfl
  | succ k ih => rw [advanceIter_succ, ih, advance_applyTilt_comm, advanceIter_succ]

/-- C1: one `advanceRotationAndOrbit` call adds exactly
`2π / (dayLength × 86400) × 77` to the body mesh's y rotation and, when
`yearLength` is non-null, exactly `2π / (yearLength × 86400) × 25000` to
the pivot's y rotation; a negative `dayLength` yields a spin increment of
opposite sign and equal magnitude. -/
theorem spec_C1 (node : BodyNode) (d : ℚ) (yl : Option ℚ) (hd : d ≠ 0)
    (hyl : ∀ y, yl = some y → y ≠ 0) :
    (advanceRotationAndOrbit node d yl).body.rotation.y
      = node.body.rotation.y + 2 * mathPI / (d * 86400) * 77
    ∧ (∀ y, yl = some y →
        (advanceRotationAndOrbit node d yl).pivot.rotation.y
          = node.pivot.rotation.y + 2 * mathPI / (y * 86400) * 25000)
    ∧ (advanceRotationAndOrbit node (-d) yl).body.rotation.y - node.body.rotation.y
      = -((advanceRotationAndOrbit node d yl).body.rotation.y - node.body.rotation.y) := by
  refine ⟨?_, ?_, ?_⟩
  · rw [advance_body_y]
    unfold TWO_PI ROTATION_SCALE
    ring
  · intro y hy
    subst hy
    rw [advance_pivot_y_some]
    unfold TWO_PI ORBIT_SCALE
    ring
  · rw [advance_body_y, advance_body_y]
    have h : (-d) * 86400 = -(d * 86400) := by ring
    rw [h, div_neg]
    ring

/-- C1 witness: concrete instance of the spin-increment equation at day
length 1 and year length 2. -/
theorem spec_C1_witness :
    (advanceRotationAndOrbit earthNode 1 (some 2)).body.rotation.y
      = earthNode.body.rotation.y + 2 * mathPI / (1 * 86400) * 77 := by
  have h := spec_C1 earthNode 1 (some 2) (by norm_num)
    (by intro y hy; simp only [Option.some.injEq] at hy; subst hy; norm_num)
  exact h.1

/-- C3: with a null year length, any number of advance calls leaves the
pivot (hence its post-tilt rotation) unchanged while the body spin still
changes each call; moreover one advance leaves the pivot unchanged iff the
year length is null. -/
theorem spec_C3 (node : BodyNode) (d : ℚ) (N : ℕ) (hd : d ≠ 0) :
    (advanceIter N node d none).pivot = node.pivot
    ∧ (advanceIter (N + 1) node d none).body.rotation.y
        ≠ (advanceIter N node d none).body.rotation.y
    ∧ (∀ yl : Option ℚ, (∀ y, yl = some y → y ≠ 0) →
        ((advanceRotationAndOrbit node d yl).pivot = node.pivot ↔ yl = none)) := by
  refine ⟨advanceIter_pivot_none .., ?_, ?_⟩
  · rw [advanceIter_body_y, advanceIter_body_y]
    intro hEq
    apply spinIncrement_ne_zero hd
    push_cast at hEq
    linarith
  · intro yl hyl
    constructor
    · intro h
      rcases yl with _ | y
      · rfl
      · exfalso
        have hy : y ≠ 0 := hyl y rfl
        have h2 := congrArg (fun o => o.rotation.y) h
        simp only [advance_pivot_y_some] at h2
        exact orbIncrement_ne_zero hy (by linarith)
    · intro h
      subst h
      exact advance_pivot_none ..

/-- C3 witness: concrete instance with day length 1 and no year length. -/
theorem spec_C3_witness :
    (advanceIter 0 earthNode 1 none).pivot = earthNode.pivot
    ∧ (advanceIter 1 earthNode 1 none).body.rotation.y
        ≠ (advanceIter 0 earthNode 1 none).body.rotation.y := by
  have h := spec_C3 earthNode 1 0 (by norm_num)
  exact ⟨h.1, h.2.1⟩

/-- C4: in the clamped-interpolation camera variant, for every scroll
offset `t` the camera pose is the linear interpolation of the start and end
poses at progress `min 1 (max 0 (-t / 2000))`; in particular `t = 0` gives
exactly the start pose, `t = -1000` gives the exact midpoint, and
`t = -5000` is clamped to exactly the end pose. -/
theorem spec_C4 (t : ℚ) (st : ViewState) :
    (moveCamera t st).camera.position
      = ⟨interpolate INIT_X END_X (min 1 (max 0 (-t / 2000))),
         interpolate INIT_Y END_Y (min 1 (max 0 (-t / 2000))),
         interpolate INIT_Z END_Z (min 1 (max 0 (-t / 2000)))⟩
    ∧ (moveCamera t st).camera.rotation.x
      = interpolate 0 END_ROTATION_X (min 1 (max 0 (-t / 2000)))
    ∧ (moveCamera 0 st).camera.position = ⟨INIT_X, INIT_Y, INIT_Z⟩
    ∧ (moveCamera 0 st).camera.rotation.x = 0
    ∧ (moveCamera (-1000) st).camera.position
      = ⟨(INIT_X + END_X) / 2, (INIT_Y + END_Y) / 2, (INIT_Z + END_Z) / 2⟩
    ∧ (moveCamera (-1000) st).camera.rotation.x = END_ROTATION_X / 2
    ∧ (moveCamera (-5000) st).camera.position = ⟨END_X, END_Y, END_Z⟩
    ∧ (moveCamera (-5000) st).camera.rotation.x = END_ROTATION_X := by
  refine ⟨rfl, rfl, ?_, ?_, ?_, ?_, ?_, ?_⟩ <;>
    simp [moveCamera, interpolate, INIT_X, INIT_Y, INIT_Z, END_X, END_Y, END_Z,
      END_ROTATION_X, min_def, max_def] <;> norm_num

/-- C2: the scene-population loop always passes a (truthy) `ringParam`
object to `createBody`, so a registry entry without ring radii (such as
Mercury, `ringInnerKm`/`ringOuterKm` absent) still receives a ring mesh,
contradicting the ring-iff-radii claim for registry-built bodies;
`createBody` itself does satisfy the iff with respect to its own
`ringRadii` argument. -/
theorem spec_C2 :
    mercuryParams.ringInnerKm = none ∧ mercuryParams.ringOuterKm = none
    ∧ (buildEntry mercuryParams 0 0).ring.isSome = true
    ∧ (∀ (n : String) (r dist : ℚ), (createBody n r dist none).node.ring = none)
    ∧ (∀ (n : String) (r dist : ℚ) (rr : RingRadii),
        ((createBody n r dist (some rr)).node.ring).isSome = true) :=
  ⟨rfl, rfl, rfl, fun _ _ _ => rfl, fun _ _ _ _ => rfl⟩

/-- C6 (amended): `applyTiltAndInclination` and `advanceRotationAndOrbit`
are additive on disjoint rotation components and therefore commute: tilt
followed by N advances yields the tilt offset plus N times the per-frame
delta, and the same final state is reached when the tilt is applied after
the N advances — reordering does not change the result. -/
theorem spec_C6 (node : BodyNode) (tilt incl d : ℚ) (yl : Option ℚ) (N : ℕ) :
    advanceIter N (applyTiltAndInclination node tilt incl) d yl
      = applyTiltAndInclination (advanceIter N node d yl) tilt incl
    ∧ (advanceIter N (applyTiltAndInclination node tilt incl) d yl).body.rotation.y
      = node.body.rotation.y + N * (TWO_PI / (d * 86400) * ROTATION_SCALE)
    ∧ (advanceIter N (applyTiltAndInclination node tilt incl) d yl).body.rotation.x
      = node.body.rotation.x + tilt * DEG_TO_RAD := by
  refine ⟨advanceIter_applyTilt_comm .., ?_, ?_⟩
  · rw [advanceIter_body_y, applyTilt_body_y]
  · rw [advanceIter_body_x, applyTilt_body_x]

/-- C6 counterexample: reordering tilt and advance does not break the
equality — at Earth's parameters, advancing after tilting gives exactly the
same node state as tilting after advancing, refuting the claim that the
equality holds only when tilt precedes any advance. -/
theorem spec_C6_counterexample :
    advanceRotationAndOrbit (applyTiltAndInclination earthNode 23.439 0) 1 (some 365.256)
      = applyTiltAndInclination (advanceRotationAndOrbit earthNode 1 (some 365.256)) 23.439 0 :=
  advance_applyTilt_comm earthNode 23.439 0 1 (some 365.256)

/-- Multiplication of two finite JS numbers is exact. -/
lemma jsMul_num (a b : ℚ) : jsMul (JsNum.num a) (JsNum.num b) = JsNum.num (a * b) := rfl

/-- Division of a positive finite JS number by zero yields Infinity. -/
lemma jsDiv_num_zero_pos {a : ℚ} (ha : 0 < a) :
    jsDiv (JsNum.num a) (JsNum.num 0) = JsNum.inf := by
  simp [jsDiv, ha]

/-- TWO_PI is positive. -/
lemma TWO_PI_pos : 0 < TWO_PI := by norm_num [TWO_PI, mathPI]

/-- C7 helper: computed at day length 0, the spin increment is Infinity. -/
lemma rotationPeriodJs_zero : rotationPeriodJs (JsNum.num 0) = JsNum.inf := by
  rw [rotationPeriodJs, jsMul_num, zero_mul, TWO_PI_JS, jsDiv_num_zero_pos TWO_PI_pos]
  simp [jsMul]

/-- C7 helper: computed at year length 0, the orbital increment is
Infinity. -/
lemma orbitalPeriodJs_zero : orbitalPeriodJs (JsNum.num 0) = JsNum.inf := by
  rw [orbitalPeriodJs, jsMul_num, zero_mul, TWO_PI_JS, jsDiv_num_zero_pos TWO_PI_pos]
  simp [jsMul]

/-- C7: with a zero `dayLength` the period computation of
`advanceRotationAndOrbit` divides by zero and produces a non-finite
(Infinity) increment, and the function applies it to the rotation state
unguarded (likewise for a zero `yearLength`). -/
theorem spec_C7 :
    rotationPeriodJs (JsNum.num 0) = JsNum.inf
    ∧ JsNum.isFinite (rotationPeriodJs (JsNum.num 0)) = false
    ∧ orbitalPeriodJs (JsNum.num 0) = JsNum.inf
    ∧ (∀ (node : BodyNodeJs) (yl : Option JsNum),
        (advanceRotationAndOrbitJs node (JsNum.num 0) yl).bodyRotY
          = jsAdd node.bodyRotY JsNum.inf)
    ∧ (∀ q : ℚ, jsAdd (JsNum.num q) JsNum.inf = JsNum.inf) := by
  refine ⟨rotationPeriodJs_zero, by rw [rotationPeriodJs_zero]; rfl, orbitalPeriodJs_zero, ?_,
    fun q => rfl⟩
  intro node yl
  cases yl <;> simp [advanceRotationAndOrbitJs, rotationPeriodJs_zero]

/-! Helper lemmas: event sequences and the camera rotation components the
scroll handler does not write. -/

lemma applyEvents_cons (st : ViewState) (e : BrowserEvent) (es : List BrowserEvent) :
    applyEvents st (e :: es) = applyEvents (applyEvent st e) es := rfl

lemma applyEvents_append_one (st : ViewState) (es : List BrowserEvent) (e : BrowserEvent) :
    applyEvents st (es ++ [e]) = applyEvent (applyEvents st es) e := by
  simp [applyEvents, List.foldl_append]

lemma applyEvent_rot_y (st : ViewState) (e : BrowserEvent) :
    (applyEvent st e).camera.rotation.y = st.camera.rotation.y := by
  cases e <;> rfl

lemma applyEvent_rot_z (st : ViewState) (e : BrowserEvent) :
    (applyEvent st e).camera.rotation.z = st.camera.rotation.z := by
  cases e <;> rfl

lemma applyEvents_rot_y (st : ViewState) (es : List BrowserEvent) :
    (applyEvents st es).camera.rotation.y = st.camera.rotation.y := by
  induction es generalizing st with
  | nil => rfl
  | cons e es ih => rw [applyEvents_cons, ih, applyEvent_rot_y]

lemma applyEvents_rot_z (st : ViewState) (es : List BrowserEvent) :
    (applyEvents st es).camera.rotation.z = st.camera.rotation.z := by
  induction es generalizing st with
  | nil => rfl
  | cons e es ih => rw [applyEvents_cons, ih, applyEvent_rot_z]

lemma applyEvents_init_rot_y (w h : ℚ) (es : List BrowserEvent) :
    (applyEvents (initViewState w h) es).camera.rotation.y = 0 :=
  (applyEvents_rot_y (initViewState w h) es).trans rfl

lemma applyEvents_init_rot_z (w h : ℚ) (es : List BrowserEvent) :
    (applyEvents (initViewState w h) es).camera.rotation.z = 0 :=
  (applyEvents_rot_z (initViewState w h) es).trans rfl

lemma moveCamera_rotation_congr (t : ℚ) (a b : ViewState)
    (hy : a.camera.rotation.y = b.camera.rotation.y)
    (hz : a.camera.rotation.z = b.camera.rotation.z) :
    (moveCamera t a).camera.rotation = (moveCamera t b).camera.rotation := by
  simp [moveCamera, hy, hz]

/-- C8: the scroll handler is idempotent, and after any history of resize
and scroll events from startup a final scroll at offset `t` yields a camera
position and rotation that depend on `t` alone — no hidden accumulation. -/
theorem spec_C8 :
    (∀ (t : ℚ) (st : ViewState), moveCamera t (moveCamera t st) = moveCamera t st)
    ∧ (∀ (w h w2 h2 t : ℚ) (es es2 : List BrowserEvent),
        (applyEvents (initViewState w h) (es ++ [BrowserEvent.scroll t])).camera.position
          = (applyEvents (initViewState w2 h2) (es2 ++ [BrowserEvent.scroll t])).camera.position
        ∧ (applyEvents (initViewState w h) (es ++ [BrowserEvent.scroll t])).camera.rotation
          = (applyEvents (initViewState w2 h2) (es2 ++ [BrowserEvent.scroll t])).camera.rotation) := by
  constructor
  · intro t st
    rfl
  · intro w h w2 h2 t es es2
    rw [applyEvents_append_one, applyEvents_append_one]
    constructor
    · rfl
    · exact moveCamera_rotation_congr t _ _
        ((applyEvents_init_rot_y w h es).trans (applyEvents_init_rot_y w2 h2 es2).symm)
        ((applyEvents_init_rot_z w h es).trans (applyEvents_init_rot_z w2 h2 es2).symm)
